import Mathlib

/-!
Verification of the scourt-api extraction pipeline (src/api/index.py).

The Python module is embedded shallowly:
* `classify_category`, `extract_bid_info`, `format_price` are translated
  as pure Lean functions over `String` / `Nat`;
* the regular expressions used by the extractor are interpreted by a small
  backtracking engine (`mtch` / `reSearch`) that mirrors the semantics of
  Python `re.search` for the constructs actually occurring in the source:
  literals, character classes, greedy star/plus over fixed chunks of
  character classes, greedy bounded repetition (encoded through ordered
  alternation), optional groups and capture groups; the engine scans start
  positions left to right and, at a given start, enumerates alternatives
  in backtracking preference order (left alternative first, longer
  repetition first), exactly as the Python engine does;
* the two scraper methods `get_notice_list` / `get_notice_detail` are
  embedded as functions of the fetched response: the HTTP transport is an
  explicit input (`Fetch`), a parsed document is a record holding the
  results of the BeautifulSoup queries the code performs, and the wall
  clock read by `datetime.now()` is an explicit `now` argument.
-/

namespace Scourt

/-- The single-quote character (code point 39). -/
def sq : Char := Char.ofNat 39

/-- ASCII whitespace as matched by the `\s` class of the Python patterns. -/
def pySpace (c : Char) : Bool :=
  c = ' ' || c = '\t' || c = '\n' || c = '\r' || c = Char.ofNat 11 || c = Char.ofNat 12

/-- Character class `[:\s]`. -/
def isColonSpace (c : Char) : Bool := c = ':' || pySpace c

/-- Character class `[0-9,]`. -/
def isDigitComma (c : Char) : Bool := c.isDigit || c = ','

/-- Character class `[0-9,.]`. -/
def isDigitCommaDot (c : Char) : Bool := c.isDigit || c = ',' || c = '.'

/-- Character class `[^\n]`. -/
def notNewlineB (c : Char) : Bool := c != '\n'

/-- Character class `[^\n,]`. -/
def notNewlineCommaB (c : Char) : Bool := c != '\n' && c != ','

/-- Character class `[^\d]`. -/
def notDigitB (c : Char) : Bool := !c.isDigit

/-- Character class `[%％]`. -/
def isPct (c : Char) : Bool := c = '%' || c = '％'

/-- Character class excluding the single quote, `[^...]` with code 39. -/
def notQuote (c : Char) : Bool := c != sq

/-- Date separator class: dot, dash, slash or 년. -/
def dateSep1 (c : Char) : Bool := c = '.' || c = '-' || c = '/' || c = '년'

/-- Date separator class: dot, dash, slash or 월. -/
def dateSep2 (c : Char) : Bool := c = '.' || c = '-' || c = '/' || c = '월'

/-- Boolean substring test: Python `needle in hay`. -/
def substrB (needle : List Char) : List Char → Bool
  | [] => needle.isEmpty
  | c :: rest => needle.isPrefixOf (c :: rest) || substrB needle rest

/-- Match a fixed chunk of character classes against a prefix of the input,
returning the consumed characters and the rest. -/
def chunkAt (chunk : List (Char → Bool)) (l : List Char) :
    Option (List Char × List Char) :=
  match chunk, l with
  | [], l => some ([], l)
  | p :: ps, c :: cs =>
    if p c then (chunkAt ps cs).map (fun a => (c :: a.1, a.2)) else none
  | _ :: _, [] => none

/-- Greedy repetition of a chunk: all possible outcomes, most repetitions
first (the order a backtracking greedy `*` explores them). `fuel` bounds the
number of repetitions; callers pass the input length, which is enough since
every chunk of the source's patterns consumes at least one character. -/
def repGreedy (chunk : List (Char → Bool)) : Nat → List Char → List (List Char × List Char)
  | 0, l => [([], l)]
  | fuel + 1, l =>
    match chunkAt chunk l with
    | none => [([], l)]
    | some cr =>
      ((repGreedy chunk fuel cr.2).map (fun a => (cr.1 ++ a.1, a.2))) ++ [([], l)]

/-- Abstract syntax of the regular expressions used in src/api/index.py.
`star`/`plus` are greedy repetitions of a fixed chunk of character classes;
bounded greedy repetitions and optional pieces are encoded with `alt`
(left alternative preferred). -/
inductive RE where
  | eps : RE
  | cls : (Char → Bool) → RE
  | lit : List Char → RE
  | seq : RE → RE → RE
  | alt : RE → RE → RE
  | star : List (Char → Bool) → RE
  | plus : List (Char → Bool) → RE
  | group : RE → RE

/-- All matches of `re` against a prefix of the input, in backtracking
preference order. Each outcome is `(consumed, captured groups, rest)`. -/
def mtch : RE → List Char → List (List Char × List (List Char) × List Char)
  | .eps, l => [([], [], l)]
  | .cls _, [] => []
  | .cls p, c :: cs => if p c then [([c], [], cs)] else []
  | .lit s, l => if s.isPrefixOf l then [(s, [], l.drop s.length)] else []
  | .seq a b, l =>
    (mtch a l).flatMap (fun r1 =>
      (mtch b r1.2.2).map (fun r2 => (r1.1 ++ r2.1, r1.2.1 ++ r2.2.1, r2.2.2)))
  | .alt a b, l => mtch a l ++ mtch b l
  | .star ch, l => (repGreedy ch l.length l).map (fun a => (a.1, [], a.2))
  | .plus ch, l =>
    match chunkAt ch l with
    | none => []
    | some cr => (repGreedy ch cr.2.length cr.2).map (fun a => (cr.1 ++ a.1, [], a.2))
  | .group a, l => (mtch a l).map (fun r => (r.1, r.2.1 ++ [r.1], r.2.2))

/-- `re.search`: scan start positions left to right; at the first position
admitting a match, return the captured groups of the preferred match. -/
def reSearch (re : RE) : List Char → Option (List (List Char))
  | [] =>
    match mtch re [] with
    | r :: _ => some r.2.1
    | [] => none
  | c :: rest =>
    match mtch re (c :: rest) with
    | r :: _ => some r.2.1
    | [] => reSearch re rest

/-- Sequential composition of a list of regular expressions. -/
def seqs : List RE → RE
  | [] => .eps
  | [r] => r
  | r :: rs => .seq r (seqs rs)

/-- Literal regular expression from a string. -/
def rl (s : String) : RE := .lit s.data

/-- Greedy optional piece `(?:...)?`: prefer presence. -/
def reOpt (a : RE) : RE := .alt a .eps

/-- `\d{4}`. -/
def d4 : RE :=
  seqs [.cls Char.isDigit, .cls Char.isDigit, .cls Char.isDigit, .cls Char.isDigit]

/-- Greedy `\d{1,2}`: two digits preferred over one. -/
def d12 : RE := .alt (.seq (.cls Char.isDigit) (.cls Char.isDigit)) (.cls Char.isDigit)

/-- Greedy `[0-9]{1,3}`: three digits, then two, then one. -/
def d13 : RE :=
  .alt (seqs [.cls Char.isDigit, .cls Char.isDigit, .cls Char.isDigit]) d12

/-- The capture group shared by all date patterns: four digits, a
`dateSep1` separator, optional spaces, one or two digits, a `dateSep2`
separator, optional spaces, one or two digits, an optional 일. -/
def dateCore : RE :=
  .group (seqs [d4, .cls dateSep1, .star [pySpace], d12, .cls dateSep2,
    .star [pySpace], d12, reOpt (rl "일")])

/-- First capture group of the first pattern in the list that matches,
mirroring the source's sequential `re.search` loops with `break`. -/
def firstGroup1 (pats : List RE) (l : List Char) : Option String :=
  match pats with
  | [] => none
  | p :: ps =>
    match reSearch p l with
    | some gs => (gs.get? 0).map (fun g => String.mk g)
    | none => firstGroup1 ps l

/-- Python `int(...)` on the digit strings produced by the extractor:
defined exactly on non-empty all-digit strings. -/
def toNatDigits (s : String) : Option Nat :=
  if s.data ≠ [] ∧ s.data.all Char.isDigit then
    some (s.data.foldl (fun a c => a * 10 + (c.toNat - 48)) 0)
  else none

/-- Python `.replace(",", "")`. -/
def stripCommas (s : String) : String :=
  String.mk (s.data.filter (fun c => c != ','))

/-- Python `str.endswith` on the relevant ASCII suffixes. -/
def endsWithB (s suffix : String) : Bool :=
  suffix.data.reverse.isPrefixOf s.data.reverse

/-- Python `.lower()`: lower-case character by character (the ASCII-letter
case is the one the keyword matching can depend on). -/
def pyLower (s : String) : String := String.mk (s.data.map Char.toLower)

/-- Python slicing `s[:n]`: the first `n` characters. -/
def pyTake (s : String) (n : Nat) : String := String.mk (s.data.take n)

/-- Python `.strip()`: drop whitespace from both ends. -/
def pyStrip (s : String) : String :=
  String.mk (((s.data.dropWhile pySpace).reverse.dropWhile pySpace).reverse)

/-- One step of the source's append-on-success loops (`if parsed: out.append(parsed)`). -/
def appendStep {A B : Type} (f : A -> Option B) (acc : List B) (x : A) : List B :=
  match f x with
  | some b => acc ++ [b]
  | none => acc

/-! ### classify_category -/

/-- 부동산 키워드 (real-estate keyword group). -/
def real_estate_keywords : List String :=
  ["부동산", "토지", "건물", "아파트", "주택", "오피스텔", "상가", "공장",
   "창고", "대지", "임야", "전", "답", "빌딩", "근린시설"]

/-- 동산 키워드 (movable keyword group). -/
def movable_keywords : List String :=
  ["동산", "차량", "자동차", "기계", "설비", "장비", "재고", "물품", "가구",
   "집기", "비품", "중장비", "트럭"]

/-- 채권 키워드 (bond keyword group). -/
def bond_keywords : List String :=
  ["채권", "매출채권", "대여금", "보증금반환", "임대차보증금", "공사대금",
   "물품대금", "용역대금", "예금", "적금", "보험금", "주식", "출자지분"]

/-- 무형자산 키워드 (intangible keyword group). -/
def intangible_keywords : List String :=
  ["무형자산", "특허", "상표", "영업권", "저작권", "지식재산", "라이선스"]

/-- `classify_category(title, content="")`: lower-case
`title + " " + content` and return the label of the first keyword group
with a member occurring as a substring; 기타 otherwise. -/
def classify_category (title : String) (content : String) : String :=
  let text := pyLower (title ++ " " ++ content)
  if real_estate_keywords.any (fun kw => substrB kw.data text.data) then "부동산"
  else if movable_keywords.any (fun kw => substrB kw.data text.data) then "동산"
  else if bond_keywords.any (fun kw => substrB kw.data text.data) then "채권"
  else if intangible_keywords.any (fun kw => substrB kw.data text.data) then "기타"
  else "기타"

/-! ### format_price -/

/-- Insert thousands separators into a reversed digit list, three digits at
a time (fuel-driven so that it reduces in the kernel). -/
def group3 (fuel : Nat) (ds : List Char) : List Char :=
  match fuel, ds with
  | 0, ds => ds
  | _, [] => []
  | fuel + 1, ds =>
    if ds.length ≤ 3 then ds else ds.take 3 ++ [','] ++ group3 fuel (ds.drop 3)

/-- Python format spec with a comma: decimal rendering of a natural number
with thousands separators. -/
def commaFmt (n : Nat) : String :=
  let ds := Nat.toDigits 10 n
  String.mk ((group3 ds.length ds.reverse).reverse)

/-- `format_price(price)`: None for None; 억/만원 rendering above
100,000,000; 만원 rendering from 10,000; plain 원 below. -/
def format_price : Option Nat → Option String
  | none => none
  | some price =>
    if price ≥ 100000000 then
      let eok := price / 100000000
      let man := price % 100000000 / 10000
      if man > 0 then some (Nat.repr eok ++ "억 " ++ commaFmt man ++ "만원")
      else some (Nat.repr eok ++ "억원")
    else if price ≥ 10000 then some (commaFmt (price / 10000) ++ "만원")
    else some (commaFmt price ++ "원")

/-! ### extract_bid_info pattern lists -/

/-- `date_patterns` (five alternatives tried in order). -/
def date_patterns : List RE :=
  [seqs [rl "입찰기일", .star [isColonSpace], dateCore],
   seqs [rl "입찰일", .star [isColonSpace], dateCore],
   seqs [rl "매각기일", .star [isColonSpace], dateCore],
   seqs [dateCore, .star [notDigitB], rl "입찰"],
   seqs [rl "기일", .star [isColonSpace], dateCore]]

/-- `location_patterns`: 입찰장소 then a line fragment, or 장소 then a
fragment containing 법원. -/
def location_patterns : List RE :=
  [seqs [rl "입찰장소", .star [isColonSpace], .group (.plus [notNewlineCommaB])],
   seqs [rl "장소", .star [isColonSpace],
     .group (seqs [.plus [notNewlineCommaB], rl "법원", .star [notNewlineCommaB]])]]

/-- `price_patterns` (five alternatives: labelled prices first, then the
currency-marker pattern, then the bare comma-grouped number). -/
def price_patterns : List RE :=
  [seqs [rl "최저", reOpt (rl "입찰"), rl "가", reOpt (rl "격"),
     .star [isColonSpace], .group (.plus [isDigitComma]), .star [pySpace], rl "원"],
   seqs [rl "매각", reOpt (rl "예정"), rl "가", reOpt (rl "격"),
     .star [isColonSpace], .group (.plus [isDigitComma]), .star [pySpace], rl "원"],
   seqs [rl "감정가", reOpt (rl "격"),
     .star [isColonSpace], .group (.plus [isDigitComma]), .star [pySpace], rl "원"],
   seqs [.alt (rl "금") (rl "₩"), .star [pySpace],
     .group (.plus [isDigitComma]), .star [pySpace], rl "원"],
   seqs [.group (.seq d13 (.plus [fun c => c = ',', Char.isDigit, Char.isDigit, Char.isDigit])),
     .star [pySpace], rl "원"]]

/-- `deposit_patterns`, each tagged with whether its source text contains a
percent sign (the code checks the pattern string itself to decide between
the amount field and the rate field). The first two are amount patterns
(보증금 / 입찰보증금 then digits-and-commas then 원); the last two are
percentage patterns (digits then a percent sign). -/
def deposit_patterns : List (Bool × RE) :=
  [(false, seqs [rl "보증금", .star [isColonSpace],
      .group (.plus [isDigitComma]), .star [pySpace], rl "원"]),
   (false, seqs [rl "입찰보증금", .star [isColonSpace],
      .group (.plus [isDigitComma]), .star [pySpace], rl "원"]),
   (true, seqs [rl "보증금", .star [isColonSpace], rl "최저", reOpt (rl "입찰"),
      rl "가", reOpt (rl "격"), reOpt (rl "의"), .star [pySpace],
      .group (.plus [Char.isDigit]), .cls isPct]),
   (true, seqs [rl "보증금", .star [isColonSpace],
      .group (.plus [Char.isDigit]), .cls isPct])]

/-- `location_addr_patterns`: 소재지, 소재, 주소 or 물건(의) 표시, each
followed by the rest of the line. -/
def location_addr_patterns : List RE :=
  [seqs [rl "소재지", .star [isColonSpace], .group (.plus [notNewlineB])],
   seqs [rl "소재", .star [isColonSpace], .group (.plus [notNewlineB])],
   seqs [rl "주소", .star [isColonSpace], .group (.plus [notNewlineB])],
   seqs [rl "물건", reOpt (rl "의"), .star [pySpace], rl "표시",
     .star [isColonSpace], .group (.plus [notNewlineB])]]

/-- Area unit alternation: ㎡, m2, 제곱미터 or 평. -/
def areaUnit : RE := .alt (rl "㎡") (.alt (rl "m2") (.alt (rl "제곱미터") (rl "평")))

/-- `area_patterns`. -/
def area_patterns : List RE :=
  [seqs [rl "면적", .star [isColonSpace], .group (.plus [isDigitCommaDot]),
     .star [pySpace], areaUnit],
   seqs [.group (.plus [isDigitCommaDot]), .star [pySpace], .alt (rl "㎡") (rl "m2")],
   seqs [.group (.plus [isDigitCommaDot]), .star [pySpace], rl "평"]]

/-- `payment_patterns`: 잔금...기한 or 대금...납부...기한, then a date. -/
def payment_patterns : List RE :=
  [seqs [rl "잔금", .star [notNewlineB], rl "기한", .star [isColonSpace], dateCore],
   seqs [rl "대금", .star [notNewlineB], rl "납부", .star [notNewlineB],
     rl "기한", .star [isColonSpace], dateCore]]

/-! ### extract_bid_info -/

/-- The record assembled by `extract_bid_info` (every field starts as
`None`). -/
structure BidInfo where
  bid_date : Option String
  bid_location : Option String
  minimum_price : Option Nat
  deposit : Option Nat
  deposit_rate : Option String
  payment_deadline : Option String
  property_location : Option String
  area : Option String
deriving DecidableEq, Repr

/-- The all-`None` record `extract_bid_info` starts from. -/
def emptyBidInfo : BidInfo :=
  ⟨none, none, none, none, none, none, none, none⟩

/-- First matching tagged deposit pattern, with its tag and first group. -/
def firstMatchTag : List (Bool × RE) → List Char → Option (Bool × List Char)
  | [], _ => none
  | p :: ps, l =>
    match reSearch p.2 l with
    | some gs => some (p.1, (gs.get? 0).getD [])
    | none => firstMatchTag ps l

/-- The deposit block of `extract_bid_info`: first matching pattern wins;
a percent-tagged pattern populates the rate, otherwise the comma-stripped
digits are parsed into the amount (parse failure swallowed). -/
def extractDeposit (l : List Char) : Option Nat × Option String :=
  match firstMatchTag deposit_patterns l with
  | none => (none, none)
  | some tg =>
    let value := String.mk (tg.2.filter (fun c => c != ','))
    if tg.1 then (none, some (value ++ "%"))
    else (toNatDigits value, none)

/-- `extract_bid_info(content)`: falsy content yields the empty record;
otherwise each field is extracted independently by its ordered pattern
list, first match wins. -/
def extract_bid_info (content : String) : BidInfo :=
  if content = "" then emptyBidInfo
  else
    let l := content.data
    let dep := extractDeposit l
    { bid_date := (firstGroup1 date_patterns l).map pyStrip
      bid_location := (firstGroup1 location_patterns l).map (fun s => pyTake (pyStrip s) 100)
      minimum_price := (firstGroup1 price_patterns l).bind
        (fun g => toNatDigits (stripCommas g))
      deposit := dep.1
      deposit_rate := dep.2
      payment_deadline := (firstGroup1 payment_patterns l).map pyStrip
      property_location := (firstGroup1 location_addr_patterns l).map
        (fun s => pyTake (pyStrip s) 200)
      area := (firstGroup1 area_patterns l).map pyStrip }

/-! ### The scraper: documents, fetch results, and the two parser methods.

An HTML document is embedded as a record holding the results of exactly the
BeautifulSoup queries the code performs: each `Option String` field is the
`get_text(strip=True)` of the corresponding `soup.find(...)` when that
element exists. The HTTP layer is an explicit `Fetch` input (a transport
failure, i.e. a raised exception, or a response with a status code and a
parsed body), and the wall clock read by `datetime.now().isoformat()` is
an explicit `now` argument. -/

/-- An anchor element: `get_text(strip=True)` and `get("href", "")`
(so a missing href attribute is the empty string). -/
structure Link where
  text : String
  href : String
deriving DecidableEq, Repr

/-- A `td` cell: its stripped text and its first contained anchor
(`td.find("a")`). -/
structure Cell where
  text : String
  firstLink : Option Link
deriving DecidableEq, Repr

/-- The default cell used to total-ize list indexing that the Python code
performs only after a length check. -/
def defaultCell : Cell := ⟨"", none⟩

/-- A table: `table.find("tbody")`, and when the body exists, its rows
(`tbody.find_all("tr")`), each row being its `row.find_all("td")` cells. -/
structure HtmlTable where
  tbody : Option (List (List Cell))
deriving DecidableEq, Repr

/-- A listing page: `soup.find("table", class tableHor)` and
`soup.find("table")`. -/
structure ListDoc where
  tableHor : Option HtmlTable
  firstTable : Option HtmlTable
deriving DecidableEq, Repr

/-- A detail page: the four element lookups the code performs, plus
`soup.find_all("a", href=True)` in document order. -/
structure DetailDoc where
  h3_tit : Option String
  h2_elem : Option String
  view_cont : Option String
  content_div : Option String
  links : List Link
deriving DecidableEq, Repr

/-- Result of `self.session.get(...)`: either a raised transport exception
or a decoded response with a status code and a parsed document. -/
inductive Fetch (α : Type) where
  | failure : Fetch α
  | response : Nat → α → Fetch α
deriving DecidableEq, Repr

/-- One attachment record. -/
structure Attachment where
  filename : String
  stored_name : String
  type : String
deriving DecidableEq, Repr

/-- One listing entry as assembled by `get_notice_list`. -/
structure NoticeSummary where
  num : String
  court : String
  debtor : String
  title : String
  detail_id : Option String
  views : String
  category : String
  detail_url : Option String
deriving DecidableEq, Repr

/-- `self.base_url`. -/
def base_url : String := "https://www.scourt.go.kr"

/-- The pattern `seq_id=` followed by a captured digit run. -/
def seqIdRE : RE := .seq (rl "seq_id=") (.group (.plus [Char.isDigit]))

/-- The body of the row loop of `get_notice_list`: `None` when the row has
fewer than five cells or its title cell has no link (the row is skipped),
otherwise the assembled summary. -/
def parseRow (cols : List Cell) : Option NoticeSummary :=
  if cols.length < 5 then none
  else
    let num := ((cols.get? 0).getD defaultCell).text
    let court := ((cols.get? 1).getD defaultCell).text
    let debtor := ((cols.get? 2).getD defaultCell).text
    let title_col := (cols.get? 3).getD defaultCell
    match title_col.firstLink with
    | none => none
    | some link =>
      let title := link.text
      let href := link.href
      let detail_id : Option String :=
        if href ≠ "" then
          match reSearch seqIdRE href.data with
          | some gs => (gs.get? 0).map (fun g => String.mk g)
          | none => none
        else none
      let views := if 4 < cols.length then ((cols.get? 4).getD defaultCell).text else "0"
      let category := classify_category title ""
      some { num := num, court := court, debtor := debtor, title := title,
             detail_id := detail_id, views := views, category := category,
             detail_url := if href ≠ "" then some (base_url ++ href) else none }

/-- `get_notice_list(page, limit)` as a function of the fetched response:
a transport failure or non-200 status yields `[]`; a missing table or
missing tbody yields `[]`; otherwise the first `limit` rows are run
through `parseRow`, appending each successfully parsed row. -/
def get_notice_list (fetch : Fetch ListDoc) (limit : Nat) : List NoticeSummary :=
  match fetch with
  | .failure => []
  | .response status doc =>
    if status ≠ 200 then []
    else
      match doc.tableHor <|> doc.firstTable with
      | none => []
      | some table =>
        match table.tbody with
        | none => []
        | some rows =>
          (rows.take limit).foldl (appendStep parseRow) []

/-- The rows the listing loop iterates over: empty on transport failure,
non-200 status, missing table or missing tbody. -/
def docRows (fetch : Fetch ListDoc) : List (List Cell) :=
  match fetch with
  | .failure => []
  | .response status doc =>
    if status ≠ 200 then []
    else
      match doc.tableHor <|> doc.firstTable with
      | none => []
      | some table =>
        match table.tbody with
        | none => []
        | some rows => rows

/-- The attachment extraction pattern: literal `download(` and a quote,
a captured run of non-quote characters, a quote, optional spaces, a comma,
optional spaces, a quote, a second captured run, a quote and a closing
parenthesis. -/
def downloadRE : RE :=
  seqs [.lit ("download(".data ++ [sq]), .group (.plus [notQuote]), .lit [sq],
    .star [pySpace], rl ",", .star [pySpace], .lit [sq],
    .group (.plus [notQuote]), .lit ([sq] ++ ")".data)]

/-- The body of the attachment loop: a link qualifies when its href
contains `download(` and its text is non-empty and the pattern matches;
group 1 becomes the stored name, group 2 the display filename, and the
type is pdf exactly when the filename ends case-insensitively in `.pdf`. -/
def attachOfLink (link : Link) : Option Attachment :=
  if substrB "download(".data link.href.data = true ∧ link.text ≠ "" then
    match reSearch downloadRE link.href.data with
    | some gs =>
      match gs.get? 0, gs.get? 1 with
      | some g1, some g2 =>
        some { filename := String.mk g2, stored_name := String.mk g1,
               type := if endsWithB (pyLower (String.mk g2)) ".pdf" then "pdf" else "other" }
      | _, _ => none
    | none => none
  else none

/-- The attachment loop of `get_notice_detail`, appending in link order. -/
def extractAttachments (links : List Link) : List Attachment :=
  links.foldl (appendStep attachOfLink) []

/-- The nested bid-info dictionary of the detail record, including the two
formatted price strings. -/
structure DetailBidInfo where
  bid_date : Option String
  bid_location : Option String
  minimum_price : Option Nat
  minimum_price_formatted : Option String
  deposit : Option Nat
  deposit_formatted : Option String
  deposit_rate : Option String
  payment_deadline : Option String
  property_location : Option String
  area : Option String
deriving DecidableEq, Repr

/-- The record returned by `get_notice_detail`, `scraped_at` included. -/
structure NoticeDetail where
  id : String
  title : String
  category : String
  content : String
  bid_info : DetailBidInfo
  attachments : List Attachment
  attachment_count : Nat
  scraped_at : String
deriving DecidableEq, Repr

/-- `get_notice_detail(detail_id)` as a function of the fetched response
and of the clock value `now` read by `datetime.now().isoformat()`:
`None` on transport failure or non-200 status; otherwise the title falls
back through h3.tit, h2, `"Unknown"`, the content through div.view_cont,
div.content, `""`, and the full record is assembled. -/
def get_notice_detail (detail_id : String) (fetch : Fetch DetailDoc)
    (now : String) : Option NoticeDetail :=
  match fetch with
  | .failure => none
  | .response status doc =>
    if status ≠ 200 then none
    else
      let title :=
        match doc.h3_tit <|> doc.h2_elem with
        | some t => t
        | none => "Unknown"
      let full_content :=
        match doc.view_cont <|> doc.content_div with
        | some t => t
        | none => ""
      let category := classify_category title full_content
      let bid_info := extract_bid_info full_content
      let attachments := extractAttachments doc.links
      some
        { id := detail_id
          title := title
          category := category
          content := pyTake full_content 2000
          bid_info :=
            { bid_date := bid_info.bid_date
              bid_location := bid_info.bid_location
              minimum_price := bid_info.minimum_price
              minimum_price_formatted := format_price bid_info.minimum_price
              deposit := bid_info.deposit
              deposit_formatted := format_price bid_info.deposit
              deposit_rate := bid_info.deposit_rate
              payment_deadline := bid_info.payment_deadline
              property_location := bid_info.property_location
              area := bid_info.area }
          attachments := attachments
          attachment_count := attachments.length
          scraped_at := now }

/-- Erase the timestamp field, for comparing two invocations of the detail
parser made at different times. -/
def stripScrapedAt (d : NoticeDetail) : NoticeDetail :=
  { d with scraped_at := "" }

/-- Number of capture groups of a pattern. -/
def countGroups : RE → Nat
  | .eps => 0
  | .cls _ => 0
  | .lit _ => 0
  | .seq a b => countGroups a + countGroups b
  | .alt a _ => countGroups a
  | .star _ => 0
  | .plus _ => 0
  | .group a => countGroups a + 1

/-- A pattern is balanced when the two sides of every alternation carry the
same number of capture groups (true of every pattern in the source). -/
def balancedRE : RE → Bool
  | .eps => true
  | .cls _ => true
  | .lit _ => true
  | .seq a b => balancedRE a && balancedRE b
  | .alt a b => balancedRE a && balancedRE b && (countGroups a == countGroups b)
  | .star _ => true
  | .plus _ => true
  | .group a => balancedRE a

/-! ### Concrete sample inputs used by the witnesses below -/

/-- A detail document in which none of the four element lookups succeed
and there are no links. -/
def emptyDetailDoc : DetailDoc := ⟨none, none, none, none, []⟩

/-- An attachment href of the documented shape:
`javascript:download(...)` with quoted arguments `A.pdf` and 공고문.pdf. -/
def exHref : String :=
  String.mk ("javascript:download(".data ++ [sq] ++ "A.pdf".data ++ [sq] ++
    ",".data ++ [sq] ++ "공고문.pdf".data ++ [sq] ++ ")".data)

/-- An attachment link with visible text 첨부 and href `exHref`. -/
def exLink : Link := ⟨"첨부", exHref⟩

/-- A five-cell row whose title cell carries no hyperlink. -/
def rowNoLink : List Cell :=
  [⟨"1", none⟩, ⟨"법원", none⟩, ⟨"채무자", none⟩, ⟨"공고", none⟩, ⟨"7", none⟩]

/-- A five-cell row whose title link href contains no `seq_id=`. -/
def rowNoSeq : List Cell :=
  [⟨"1", none⟩, ⟨"법원", none⟩, ⟨"채무자", none⟩,
   ⟨"", some ⟨"공고", "/a"⟩⟩, ⟨"7", none⟩]

/-- A five-cell row whose title link href embeds `seq_id=12345`. -/
def rowSeq12345 : List Cell :=
  [⟨"1", none⟩, ⟨"법원", none⟩, ⟨"채무자", none⟩,
   ⟨"", some ⟨"공고", "/x?seq_id=12345&y=1"⟩⟩, ⟨"7", none⟩]

/-- The summary `parseRow` produces for `rowSeq12345`. -/
def rowSeqSummary : NoticeSummary :=
  { num := "1", court := "법원", debtor := "채무자", title := "공고",
    detail_id := some "12345", views := "7", category := "기타",
    detail_url := some "https://www.scourt.go.kr/x?seq_id=12345&y=1" }

/-! ### Helper lemmas -/

/-- The append-accumulate loops of the source are order-preserving
`filterMap`s. -/
theorem foldl_opt_append {α β : Type} (f : α → Option β) (l : List α) (acc : List β) :
    l.foldl (appendStep f) acc = acc ++ l.filterMap f := by
  induction l generalizing acc with
  | nil => simp
  | cons x xs ih =>
    cases h : f x with
    | none => simp [List.foldl_cons, appendStep, h, List.filterMap_cons, ih]
    | some b => simp [List.foldl_cons, appendStep, h, List.filterMap_cons, ih]

/-- Every outcome of the matcher on a balanced pattern carries exactly one
capture per group of the pattern. -/
theorem mtch_caps_count (re : RE) (h : balancedRE re = true) :
    ∀ (l : List Char) r, r ∈ mtch re l → r.2.1.length = countGroups re := by
  induction re with
  | eps =>
    intro l r hr
    simp only [mtch, List.mem_singleton] at hr
    subst hr; rfl
  | cls p =>
    intro l r hr
    cases l with
    | nil => simp [mtch] at hr
    | cons c cs =>
      simp only [mtch] at hr
      split at hr
      · simp only [List.mem_singleton] at hr; subst hr; rfl
      · simp at hr
  | lit s =>
    intro l r hr
    simp only [mtch] at hr
    split at hr
    · simp only [List.mem_singleton] at hr; subst hr; rfl
    · simp at hr
  | seq a b iha ihb =>
    simp only [balancedRE, Bool.and_eq_true] at h
    intro l r hr
    simp only [mtch, List.mem_flatMap, List.mem_map] at hr
    obtain ⟨r1, hr1, r2, hr2, rfl⟩ := hr
    simp only [countGroups, List.length_append]
    rw [iha h.1 _ _ hr1, ihb h.2 _ _ hr2]
  | alt a b iha ihb =>
    simp only [balancedRE, Bool.and_eq_true, beq_iff_eq] at h
    intro l r hr
    simp only [mtch, List.mem_append] at hr
    rcases hr with hr | hr
    · exact iha h.1.1 _ _ hr
    · rw [countGroups, h.2]; exact ihb h.1.2 _ _ hr
  | star ch =>
    intro l r hr
    simp only [mtch, List.mem_map] at hr
    obtain ⟨a, _, rfl⟩ := hr; rfl
  | plus ch =>
    intro l r hr
    simp only [mtch] at hr
    split at hr
    · simp at hr
    · simp only [List.mem_map] at hr
      obtain ⟨a, _, rfl⟩ := hr; rfl
  | group a iha =>
    simp only [balancedRE] at h
    intro l r hr
    simp only [mtch, List.mem_map] at hr
    obtain ⟨r1, hr1, rfl⟩ := hr
    simp only [countGroups, List.length_append, List.length_singleton]
    rw [iha h _ _ hr1]

/-- A successful `re.search` on a balanced pattern returns exactly one
capture per group. -/
theorem reSearch_caps_count (re : RE) (h : balancedRE re = true) :
    ∀ (l : List Char) gs, reSearch re l = some gs → gs.length = countGroups re := by
  intro l
  induction l with
  | nil =>
    intro gs hg
    simp only [reSearch] at hg
    split at hg
    · rename_i r rest heq
      obtain rfl : r.2.1 = gs := by injection hg
      exact mtch_caps_count re h [] r (heq ▸ List.mem_cons_self r rest)
    · exact absurd hg (by simp)
  | cons c cs ih =>
    intro gs hg
    simp only [reSearch] at hg
    split at hg
    · rename_i r rest heq
      obtain rfl : r.2.1 = gs := by injection hg
      exact mtch_caps_count re h (c :: cs) r (heq ▸ List.mem_cons_self r rest)
    · exact ih gs hg

/-! ### C1 : the categorizer -/

/-- C1 (counterexample): the claim tests keywords against the lower-cased
concatenation of title and content, but the code concatenates with a
single space in between. With title 부동 and content 산, the plain
concatenation contains the real-estate keyword 부동산, so the claim
predicts 부동산, yet the code returns 기타. -/
theorem C1_counterexample :
    classify_category "부동" "산" = "기타" ∧
    substrB ("부동산").data ((pyLower ("부동" ++ "산")).data) = true ∧
    "기타" ≠ "부동산" := by
  refine ⟨by decide, by decide, by decide⟩

/-- C1 (amended): keyword groups are tested in the fixed order real estate,
movable, bond, intangible against the lower-cased concatenation of title,
a single space, and content; the first group with a member substring gives
the label, and with no match from the first three groups the result is
기타 (both for an intangible hit and for no hit at all). In particular any
text with a real-estate keyword — even one that also has a bond keyword —
classifies 부동산, and a text with no keyword classifies 기타. -/
theorem C1_amended (title content : String) :
    (real_estate_keywords.any
       (fun kw => substrB kw.data (pyLower (title ++ " " ++ content)).data) = true →
       classify_category title content = "부동산") ∧
    (real_estate_keywords.any
       (fun kw => substrB kw.data (pyLower (title ++ " " ++ content)).data) = false →
     movable_keywords.any
       (fun kw => substrB kw.data (pyLower (title ++ " " ++ content)).data) = true →
       classify_category title content = "동산") ∧
    (real_estate_keywords.any
       (fun kw => substrB kw.data (pyLower (title ++ " " ++ content)).data) = false →
     movable_keywords.any
       (fun kw => substrB kw.data (pyLower (title ++ " " ++ content)).data) = false →
     bond_keywords.any
       (fun kw => substrB kw.data (pyLower (title ++ " " ++ content)).data) = true →
       classify_category title content = "채권") ∧
    (real_estate_keywords.any
       (fun kw => substrB kw.data (pyLower (title ++ " " ++ content)).data) = false →
     movable_keywords.any
       (fun kw => substrB kw.data (pyLower (title ++ " " ++ content)).data) = false →
     bond_keywords.any
       (fun kw => substrB kw.data (pyLower (title ++ " " ++ content)).data) = false →
       classify_category title content = "기타") := by
  refine ⟨?_, ?_, ?_, ?_⟩
  · intro h1
    simp [classify_category, h1]
  · intro h1 h2
    simp [classify_category, h1, h2]
  · intro h1 h2 h3
    simp [classify_category, h1, h2, h3]
  · intro h1 h2 h3
    simp only [classify_category, h1, h2, h3, Bool.false_eq_true, if_false]
    split <;> rfl

/-- C1 witness: a title holding both a real-estate keyword (아파트) and a
bond keyword (채권) classifies 부동산, and a keyword-free text classifies
기타. -/
theorem C1_amended_witness :
    (real_estate_keywords.any
       (fun kw => substrB kw.data (pyLower (("아파트 채권" : String) ++ " " ++ "")).data) = true ∧
     bond_keywords.any
       (fun kw => substrB kw.data (pyLower (("아파트 채권" : String) ++ " " ++ "")).data) = true ∧
     classify_category "아파트 채권" "" = "부동산") ∧
    (real_estate_keywords.any
       (fun kw => substrB kw.data (pyLower (("xyz" : String) ++ " " ++ "")).data) = false ∧
     classify_category "xyz" "" = "기타") :=
  ⟨⟨by decide, by decide, (C1_amended "아파트 채권" "").1 (by decide)⟩,
   ⟨by decide, (C1_amended "xyz" "").2.2.2 (by decide) (by decide) (by decide)⟩⟩

/-! ### C2 : the price formatter -/

/-- C2: `format_price` maps `None` to `None`; at or above 100,000,000 it
renders 억 units with the 만-unit remainder (with thousands separators)
when positive and plain 억원 when zero; from 10,000 it renders the
万-quotient with separators; below 10,000 the raw amount; and the six
documented boundary cases hold. -/
theorem C2_format_price :
    format_price none = none ∧
    format_price (some 0) = some "0원" ∧
    format_price (some 9999) = some "9,999원" ∧
    format_price (some 10000) = some "1만원" ∧
    format_price (some 100000000) = some "1억원" ∧
    format_price (some 150000000) = some "1억 5,000만원" ∧
    (∀ n : Nat, 100000000 ≤ n → 0 < n % 100000000 / 10000 →
      format_price (some n) =
        some (Nat.repr (n / 100000000) ++ "억 " ++
          commaFmt (n % 100000000 / 10000) ++ "만원")) ∧
    (∀ n : Nat, 100000000 ≤ n → n % 100000000 / 10000 = 0 →
      format_price (some n) = some (Nat.repr (n / 100000000) ++ "억원")) ∧
    (∀ n : Nat, 10000 ≤ n → n < 100000000 →
      format_price (some n) = some (commaFmt (n / 10000) ++ "만원")) ∧
    (∀ n : Nat, n < 10000 → format_price (some n) = some (commaFmt n ++ "원")) := by
  refine ⟨rfl, by decide, by decide, by decide, by decide, by decide, ?_, ?_, ?_, ?_⟩
  · intro n h1 h2
    simp [format_price, h1, h2]
  · intro n h1 h2
    simp [format_price, h1, h2]
  · intro n h1 h2
    simp [format_price, h1, h2, Nat.not_le.mpr h2]
  · intro n h1
    have h2 : ¬ 100000000 ≤ n := Nat.not_le.mpr (by omega)
    have h3 : ¬ 10000 ≤ n := Nat.not_le.mpr h1
    simp [format_price, h2, h3]

/-- C2 witness: the tier clauses applied at 250,000,000 (remainder
positive) and 200,000,000 (remainder zero). -/
theorem C2_witness :
    ((100000000 : Nat) ≤ 250000000 ∧ 0 < 250000000 % 100000000 / 10000 ∧
      format_price (some 250000000) =
        some (Nat.repr (250000000 / 100000000) ++ "억 " ++
          commaFmt (250000000 % 100000000 / 10000) ++ "만원")) ∧
    ((100000000 : Nat) ≤ 200000000 ∧ 200000000 % 100000000 / 10000 = 0 ∧
      format_price (some 200000000) =
        some (Nat.repr (200000000 / 100000000) ++ "억원")) :=
  ⟨⟨by decide, by decide,
     C2_format_price.2.2.2.2.2.2.1 250000000 (by decide) (by decide)⟩,
   ⟨by decide, by decide,
     C2_format_price.2.2.2.2.2.2.2.1 200000000 (by decide) (by decide)⟩⟩

/-! ### C3 : deposit amount and deposit rate are mutually exclusive -/

/-- C3: one extraction pass never populates both `deposit` and
`deposit_rate`; the tag of the first matching deposit pattern decides
which of the two can be set, and when no deposit pattern matches both
stay absent. A parse failure on the matched digits also leaves both
absent, since the amount is `toNatDigits` of the comma-stripped group
and the rate stays `none` in that branch. -/
theorem C3_deposit_exclusive (content : String) :
    (¬((extract_bid_info content).deposit.isSome = true ∧
       (extract_bid_info content).deposit_rate.isSome = true)) ∧
    (firstMatchTag deposit_patterns content.data = none →
      (extract_bid_info content).deposit = none ∧
      (extract_bid_info content).deposit_rate = none) ∧
    (∀ tag g, content ≠ "" →
      firstMatchTag deposit_patterns content.data = some (tag, g) →
      ((tag = true → (extract_bid_info content).deposit = none ∧
         (extract_bid_info content).deposit_rate =
           some (String.mk (g.filter (fun c => c != ',')) ++ "%")) ∧
       (tag = false → (extract_bid_info content).deposit_rate = none ∧
         (extract_bid_info content).deposit =
           toNatDigits (String.mk (g.filter (fun c => c != ',')))))) := by
  by_cases hc : content = ""
  · subst hc
    refine ⟨?_, fun _ => ⟨rfl, rfl⟩, fun tag g hne _ => absurd rfl hne⟩
    intro h
    exact absurd h.1 (by decide)
  · have hdep : (extract_bid_info content).deposit = (extractDeposit content.data).1 ∧
        (extract_bid_info content).deposit_rate = (extractDeposit content.data).2 := by
      simp [extract_bid_info, hc]
    refine ⟨?_, ?_, ?_⟩
    · rintro ⟨h1, h2⟩
      rw [hdep.1] at h1
      rw [hdep.2] at h2
      unfold extractDeposit at h1 h2
      cases hm : firstMatchTag deposit_patterns content.data with
      | none => rw [hm] at h1; exact absurd h1 (by decide)
      | some tg =>
        rw [hm] at h1 h2
        by_cases ht : tg.1 = true
        · simp [ht] at h1
        · simp [ht] at h2
    · intro hm
      rw [hdep.1, hdep.2]
      unfold extractDeposit
      rw [hm]
      exact ⟨rfl, rfl⟩
    · intro tag g _ hm
      rw [hdep.1, hdep.2]
      unfold extractDeposit
      rw [hm]
      constructor
      · intro ht; subst ht; exact ⟨rfl, rfl⟩
      · intro ht; subst ht; exact ⟨rfl, rfl⟩

/-- C3 witness: on a percentage-style content the rate is populated and
the amount absent; the first matching pattern is percent-tagged. -/
theorem C3_witness :
    ("보증금: 최저가의 10%" : String) ≠ "" ∧
    firstMatchTag deposit_patterns ("보증금: 최저가의 10%" : String).data =
      some (true, "10".data) ∧
    (extract_bid_info "보증금: 최저가의 10%").deposit = none ∧
    (extract_bid_info "보증금: 최저가의 10%").deposit_rate =
      some (String.mk ("10".data.filter (fun c => c != ',')) ++ "%") :=
  ⟨by decide, by decide,
   ((C3_deposit_exclusive "보증금: 최저가의 10%").2.2 true "10".data
     (by decide) (by decide)).1 rfl⟩

/-! ### C4 : the extractor is total and swallows parse failures -/

/-- C4: `extract_bid_info` returns a `BidInfo` for every content string,
empty content yields the all-empty record, and a matched digit group that
fails numeric parsing (here the group is a bare comma, stripped to the
empty string) leaves the deposit fields absent instead of failing. -/
theorem C4_extractor_total :
    (∀ content : String, ∃ b : BidInfo, extract_bid_info content = b) ∧
    extract_bid_info "" = emptyBidInfo ∧
    firstMatchTag deposit_patterns ("보증금 ,원" : String).data =
      some (false, [',']) ∧
    toNatDigits (String.mk ([','].filter (fun c => c != ','))) = none ∧
    (extract_bid_info "보증금 ,원").deposit = none ∧
    (extract_bid_info "보증금 ,원").deposit_rate = none :=
  ⟨fun _ => ⟨_, rfl⟩, by decide, by decide, by decide, by decide, by decide⟩

/-! ### C5 : the detail parser is all-or-nothing -/

/-- C5: a transport failure or a non-200 response makes the detail parser
return `none` with no partial record, while inside a successfully fetched
document a missing title element (both lookups) falls back to the literal
`"Unknown"` and a missing content element falls back to the empty string,
a `NoticeDetail` still being produced. -/
theorem C5_detail_all_or_nothing :
    (∀ (id now : String), get_notice_detail id .failure now = none) ∧
    (∀ (id : String) (status : Nat) (doc : DetailDoc) (now : String),
      status ≠ 200 → get_notice_detail id (.response status doc) now = none) ∧
    (∀ (id : String) (doc : DetailDoc) (now : String),
      doc.h3_tit = none → doc.h2_elem = none →
      ∃ d, get_notice_detail id (.response 200 doc) now = some d ∧
        d.title = "Unknown") ∧
    (∀ (id : String) (doc : DetailDoc) (now : String),
      doc.view_cont = none → doc.content_div = none →
      ∃ d, get_notice_detail id (.response 200 doc) now = some d ∧
        d.content = "") := by
  refine ⟨fun _ _ => rfl, ?_, ?_, ?_⟩
  · intro id status doc now h
    simp [get_notice_detail, h]
  · intro id doc now h1 h2
    refine ⟨_, rfl, ?_⟩
    simp [get_notice_detail, h1, h2, Option.orElse]
  · intro id doc now h1 h2
    refine ⟨_, rfl, ?_⟩
    simp [get_notice_detail, h1, h2, Option.orElse, pyTake]

/-- C5 witness: the theorem applied to a status-3 response and to an
all-empty 200 document. -/
theorem C5_witness :
    ((3 : Nat) ≠ 200 ∧
      get_notice_detail "9" (.response 3 emptyDetailDoc) "t" = none) ∧
    (emptyDetailDoc.h3_tit = none ∧ emptyDetailDoc.h2_elem = none ∧
      ∃ d, get_notice_detail "9" (.response 200 emptyDetailDoc) "t" = some d ∧
        d.title = "Unknown") :=
  ⟨⟨by decide, C5_detail_all_or_nothing.2.1 "9" 3 emptyDetailDoc "t" (by decide)⟩,
   ⟨rfl, rfl, C5_detail_all_or_nothing.2.2.1 "9" emptyDetailDoc "t" rfl rfl⟩⟩

/-! ### C9 : purity of the five components -/

/-- C9 (counterexample): the detail record embeds the invocation
timestamp (`scraped_at`, read from the wall clock), so two invocations of
the detail parser on the very same fetched document differ — the claim
that every component returns identical outputs on identical inputs fails
on the cited code. -/
theorem C9_counterexample :
    get_notice_detail "1" (.response 200 emptyDetailDoc) "2024-01-01T00:00:00" ≠
    get_notice_detail "1" (.response 200 emptyDetailDoc) "2024-01-01T00:00:01" := by
  decide

/-- C9 (amended): the categorizer, bid-info extractor, price formatter and
list parser are pure functions of their inputs (the fetched response being
the input of the list parser), and the detail parser is pure in every
field except `scraped_at`, which records the invocation time: erasing that
one field, two invocations on the same fetched response agree. -/
theorem C9_amended :
    (∀ title content, classify_category title content = classify_category title content) ∧
    (∀ content, extract_bid_info content = extract_bid_info content) ∧
    (∀ p, format_price p = format_price p) ∧
    (∀ (fetch : Fetch ListDoc) (limit : Nat),
      get_notice_list fetch limit = get_notice_list fetch limit) ∧
    (∀ (id : String) (fetch : Fetch DetailDoc) (now1 now2 : String),
      Option.map stripScrapedAt (get_notice_detail id fetch now1) =
      Option.map stripScrapedAt (get_notice_detail id fetch now2)) := by
  refine ⟨fun _ _ => rfl, fun _ => rfl, fun _ => rfl, fun _ _ => rfl, ?_⟩
  intro id fetch now1 now2
  cases fetch with
  | failure => rfl
  | response status doc =>
    by_cases h : status = 200
    · subst h; rfl
    · simp [get_notice_detail, h]

/-! ### C6 : the list parser caps at limit and preserves row order -/

/-- C6: the listing loop is exactly an order-preserving `filterMap` over
the first `limit` rows of the document — no reordering, no duplication —
and therefore never emits more than `limit` summaries. -/
theorem C6_list_limit_order (fetch : Fetch ListDoc) (limit : Nat) :
    get_notice_list fetch limit = ((docRows fetch).take limit).filterMap parseRow ∧
    (get_notice_list fetch limit).length ≤ limit := by
  have hmain : get_notice_list fetch limit
      = ((docRows fetch).take limit).filterMap parseRow := by
    cases fetch with
    | failure => simp [get_notice_list, docRows]
    | response status doc =>
      by_cases h : status ≠ 200
      · simp [get_notice_list, docRows, h]
      · simp only [get_notice_list, docRows, if_neg h]
        cases ht : doc.tableHor <|> doc.firstTable with
        | none => simp
        | some table =>
          cases htb : table.tbody with
          | none => simp [htb]
          | some rows =>
            have hfold := foldl_opt_append parseRow (rows.take limit)
              ([] : List NoticeSummary)
            simp only [List.nil_append] at hfold
            simpa [htb] using hfold
  refine ⟨hmain, ?_⟩
  rw [hmain]
  exact le_trans (List.length_filterMap_le _ _) (List.length_take_le _ _)

/-! ### C7 : which rows are skipped and which are emitted -/

/-- C7: a row with fewer than five cells, or whose title cell carries no
link, is never emitted; a row with at least five cells and a link is
always emitted, with an absent `detail_id` when the href admits no
`seq_id=` match; and `seq_id=12345` inside the href yields
`detail_id = "12345"` on the sample row. -/
theorem C7_row_filtering :
    (∀ cols : List Cell, cols.length < 5 → parseRow cols = none) ∧
    (∀ cols : List Cell, ((cols.get? 3).getD defaultCell).firstLink = none →
      parseRow cols = none) ∧
    (∀ (cols : List Cell) (link : Link), 5 ≤ cols.length →
      ((cols.get? 3).getD defaultCell).firstLink = some link →
      ∃ n, parseRow cols = some n) ∧
    (∀ (cols : List Cell) (link : Link), 5 ≤ cols.length →
      ((cols.get? 3).getD defaultCell).firstLink = some link →
      reSearch seqIdRE link.href.data = none →
      ∃ n, parseRow cols = some n ∧ n.detail_id = none) ∧
    (parseRow rowSeq12345).map NoticeSummary.detail_id = some (some "12345") := by
  refine ⟨?_, ?_, ?_, ?_, by decide⟩
  · intro cols h
    simp [parseRow, h]
  · intro cols hlink
    by_cases h : cols.length < 5
    · simp [parseRow, h]
    · simp only [List.get?_eq_getElem?] at hlink
      simp [parseRow, h, hlink]
  · intro cols link h5 hlink
    simp only [parseRow, if_neg (Nat.not_lt.mpr h5), hlink]
    exact ⟨_, rfl⟩
  · intro cols link h5 hlink hre
    simp only [parseRow, if_neg (Nat.not_lt.mpr h5), hlink]
    refine ⟨_, rfl, ?_⟩
    simp only [hre]
    split <;> rfl

/-- C7 witness: the skip clauses applied to an empty row and to a
five-cell row without a link, and the emit clause applied to a five-cell
row whose href has no `seq_id=`. -/
theorem C7_witness :
    (([] : List Cell).length < 5 ∧ parseRow [] = none) ∧
    (((rowNoLink.get? 3).getD defaultCell).firstLink = none ∧
      parseRow rowNoLink = none) ∧
    (5 ≤ rowNoSeq.length ∧
      ((rowNoSeq.get? 3).getD defaultCell).firstLink = some ⟨"공고", "/a"⟩ ∧
      reSearch seqIdRE ("/a" : String).data = none ∧
      ∃ n, parseRow rowNoSeq = some n ∧ n.detail_id = none) :=
  ⟨⟨by decide, C7_row_filtering.1 [] (by decide)⟩,
   ⟨by decide, C7_row_filtering.2.1 rowNoLink (by decide)⟩,
   ⟨by decide, by decide, by decide,
     C7_row_filtering.2.2.2.1 rowNoSeq ⟨"공고", "/a"⟩ (by decide) (by decide)
       (by decide)⟩⟩

/-! ### C10 : views always comes from the fifth cell -/

/-- C10: every emitted summary's `views` equals the stripped text of the
row's fifth cell; since rows with fewer than five cells were already
skipped, the `"0"` default branch is dead and no emitted record carries
the defaulted value. -/
theorem C10_views_fifth_cell :
    ∀ (cols : List Cell) (n : NoticeSummary), parseRow cols = some n →
      4 < cols.length ∧ n.views = ((cols.get? 4).getD defaultCell).text := by
  intro cols n h
  by_cases h5 : cols.length < 5
  · simp [parseRow, h5] at h
  · have h4 : 4 < cols.length := Nat.lt_of_lt_of_le (by decide) (Nat.not_lt.mp h5)
    refine ⟨h4, ?_⟩
    simp only [parseRow, if_neg h5] at h
    cases hlink : ((cols.get? 3).getD defaultCell).firstLink with
    | none => rw [hlink] at h; exact absurd h (by simp)
    | some link =>
      rw [hlink] at h
      obtain rfl : _ = n := Option.some_injective _ h
      simp [if_pos h4]

/-- C10 witness: the theorem applied to the sample row, whose fifth cell
reads `"7"`. -/
theorem C10_witness :
    parseRow rowSeq12345 = some rowSeqSummary ∧
    4 < rowSeq12345.length ∧
    rowSeqSummary.views = ((rowSeq12345.get? 4).getD defaultCell).text :=
  ⟨by decide, C10_views_fifth_cell rowSeq12345 rowSeqSummary (by decide)⟩

/-! ### C8 : attachment extraction -/

/-- C8: the attachment loop scans the document's links in order (it is an
order-preserving `filterMap`); a link is accepted exactly when its href
contains `download(`, its visible text is non-empty and the two-group
download pattern matches; the first captured argument becomes the stored
name, the second the filename, and the type is `"pdf"` exactly when the
filename ends case-insensitively in `.pdf`; on the documented example link
the extracted attachment is (공고문.pdf, A.pdf, pdf). -/
theorem C8_attachments (links : List Link) :
    extractAttachments links = links.filterMap attachOfLink ∧
    (∀ link : Link, (attachOfLink link).isSome = true ↔
      (substrB ("download(").data link.href.data = true ∧ link.text ≠ "" ∧
       (reSearch downloadRE link.href.data).isSome = true)) ∧
    (∀ (link : Link) (g1 g2 : List Char),
      substrB ("download(").data link.href.data = true → link.text ≠ "" →
      reSearch downloadRE link.href.data = some [g1, g2] →
      attachOfLink link = some
        { filename := String.mk g2, stored_name := String.mk g1,
          type := if endsWithB (pyLower (String.mk g2)) ".pdf" then "pdf"
            else "other" }) ∧
    attachOfLink exLink = some
      { filename := "공고문.pdf", stored_name := "A.pdf", type := "pdf" } := by
  refine ⟨?_, ?_, ?_, by decide⟩
  · have h := foldl_opt_append attachOfLink links ([] : List Attachment)
    simpa [extractAttachments] using h
  · intro link
    constructor
    · intro h
      by_cases hc : substrB ("download(").data link.href.data = true ∧ link.text ≠ ""
      · refine ⟨hc.1, hc.2, ?_⟩
        unfold attachOfLink at h
        rw [if_pos hc] at h
        cases hre : reSearch downloadRE link.href.data with
        | none => rw [hre] at h; simp at h
        | some gs => simp [hre]
      · unfold attachOfLink at h
        rw [if_neg hc] at h
        simp at h
    · rintro ⟨h1, h2, h3⟩
      obtain ⟨gs, hgs⟩ := Option.isSome_iff_exists.mp h3
      have hcg : countGroups downloadRE = 2 := by decide
      have hlen : gs.length = 2 :=
        hcg ▸ reSearch_caps_count downloadRE (by decide) link.href.data gs hgs
      obtain ⟨g1, g2, rfl⟩ := List.length_eq_two.mp hlen
      unfold attachOfLink
      rw [if_pos ⟨h1, h2⟩, hgs]
      simp
  · intro link g1 g2 h1 h2 h3
    unfold attachOfLink
    rw [if_pos ⟨h1, h2⟩, h3]
    rfl

/-- C8 witness: the acceptance clause applied to the documented example
link. -/
theorem C8_witness :
    substrB ("download(").data exLink.href.data = true ∧ exLink.text ≠ "" ∧
    reSearch downloadRE exLink.href.data =
      some ["A.pdf".data, "공고문.pdf".data] ∧
    attachOfLink exLink = some
      { filename := String.mk ("공고문.pdf").data,
        stored_name := String.mk ("A.pdf").data,
        type := if endsWithB (pyLower (String.mk ("공고문.pdf").data)) ".pdf"
          then "pdf" else "other" } :=
  ⟨by decide, by decide, by decide,
   (C8_attachments []).2.2.1 exLink ("A.pdf").data ("공고문.pdf").data
     (by decide) (by decide) (by decide)⟩

end Scourt
